import Mathlib

/-!
Verification development for the voice-ordering repository.

This file gives a shallow embedding, in Lean 4, of the core logic of the
repository: the order validator and pricer (src/lib/order_validator.ts), the
conversation engine with its lexical matcher, quantity extractor and order
mutator (lib/conversationEngine.ts), and the order submission retry client
(src/lib/order_submission_client.ts).  JavaScript numbers are modelled as
exact rationals; the two-decimal rounding of Number(x.toFixed(2)) is modelled
as decimal rounding half away from zero.  Nondeterministic environment reads
(Date.now, fetch results, the reply generator) become explicit parameters.
Strings are Lean strings; regular-expression matching in the source is
modelled by an explicit backtracking matcher over the same pattern shapes.
-/

namespace VoiceOrdering

/-! ## Data model (lib/types.ts) -/

structure ModifierOption where
  id : String
  name : String
  priceAdjustment : ℚ
  isAvailable : Bool
deriving DecidableEq, Repr

structure ModifierGroup where
  id : String
  name : String
  minSelection : ℚ
  maxSelection : ℚ
  options : List ModifierOption
deriving DecidableEq, Repr

structure MenuItem where
  id : String
  name : String
  description : String
  basePrice : ℚ
  category : String
  isAvailable : Bool
  modifierGroups : List ModifierGroup
deriving DecidableEq, Repr

structure SelectedModifier where
  groupId : String
  optionId : String
  name : String
  priceAdjustment : ℚ
deriving DecidableEq, Repr

structure OrderItem where
  id : String
  menuItemId : String
  name : String
  quantity : ℚ
  unitPrice : ℚ
  selectedModifiers : List SelectedModifier
  specialInstructions : Option String
deriving DecidableEq, Repr

inductive OrderStatus where
  | pending | confirmed | preparing | ready | completed | cancelled
deriving DecidableEq, Repr

structure Order where
  id : String
  customerId : Option String
  items : List OrderItem
  subtotal : ℚ
  tax : ℚ
  total : ℚ
  status : OrderStatus
  createdAt : String
  updatedAt : String
deriving DecidableEq, Repr

inductive SenderRole where
  | user | assistant | system
deriving DecidableEq, Repr

/-- Metadata attached to an assistant turn.  The source stores a free-form
record; the engine only ever writes the two keys modelled here. -/
structure TurnMetadata where
  itemAdded : Option String
  orderStatusChanged : Option String
deriving DecidableEq, Repr

structure ConversationTurn where
  id : String
  role : SenderRole
  content : String
  timestamp : String
  metadata : Option TurnMetadata
deriving DecidableEq, Repr

structure ConversationState where
  conversationId : String
  history : List ConversationTurn
  currentOrder : Order
  lastUpdated : String
deriving DecidableEq, Repr

/-! ## Rounding: Number(x.toFixed(2)) modelled on exact rationals -/

/-- Round a rational to the nearest integer, halves away from zero, as
JavaScript toFixed does on decimal representations. -/
def roundHalf (x : ℚ) : ℤ :=
  if 0 ≤ x then ⌊x + 1/2⌋ else -⌊-x + 1/2⌋

/-- Model of Number(x.toFixed(2)): round to two decimal places. -/
def round2 (q : ℚ) : ℚ := (roundHalf (q * 100) : ℚ) / 100

/-- Sum of unitPrice times quantity over a list of order lines, as the
reduce in the source computes it. -/
def sumItems (items : List OrderItem) : ℚ :=
  (items.map (fun it => it.unitPrice * it.quantity)).sum

/-! ## Order validator (src/lib/order_validator.ts) -/

inductive ErrorCode where
  | ITEM_NOT_FOUND | ITEM_UNAVAILABLE | MODIFIER_REQUIRED | MODIFIER_INVALID | PRICE_MISMATCH
deriving DecidableEq, Repr

/-- Structured detail payloads the validator attaches to modifier errors. -/
inductive ErrorDetails where
  | minDetail (groupId : String) (required : ℚ) (provided : ℕ)
  | maxDetail (groupId : String) (maxAllowed : ℚ) (provided : ℕ)
deriving DecidableEq, Repr

structure ValidationError where
  code : ErrorCode
  message : String
  itemId : Option String
  menuItemId : Option String
  details : Option ErrorDetails
deriving DecidableEq, Repr

structure ValidationResult where
  isValid : Bool
  errors : List ValidationError
  validatedOrder : Order
deriving DecidableEq, Repr

/-- Group id carried in an error detail payload, if any. -/
def detailsGroupId : Option ErrorDetails → Option String
  | none => none
  | some (.minDetail g _ _) => some g
  | some (.maxDetail g _ _) => some g

/-- Menu lookup: menu.find(m => m.id === item.menuItemId). -/
def menuLookup (menu : List MenuItem) (menuItemId : String) : Option MenuItem :=
  menu.find? (fun m => decide (m.id = menuItemId))

/-- Option ids the user selected for a given group, in submission order;
this is what the userSelectionsByGroup map in the source yields per group. -/
def selectionsFor (it : OrderItem) (groupId : String) : List String :=
  (it.selectedModifiers.filter (fun m => decide (m.groupId = groupId))).map
    (fun m => m.optionId)

/-- Processing of one selected option id within a modifier group: errors
produced, price adjustment added, and the rebuilt modifier snapshot.  The
line is passed through the two identifiers its errors mention. -/
def optionCheck (lineId menuItemId : String) (g : ModifierGroup) (optionId : String) :
    List ValidationError × ℚ × List SelectedModifier :=
  match g.options.find? (fun o => decide (o.id = optionId)) with
  | none =>
      ([{ code := .MODIFIER_INVALID,
          message := "Invalid option ID \x27" ++ optionId ++ "\x27 for group \x27" ++ g.name ++ "\x27.",
          itemId := some lineId, menuItemId := some menuItemId, details := none }], 0, [])
  | some optionDef =>
      ((if optionDef.isAvailable then [] else
          [{ code := .MODIFIER_INVALID,
             message := "Option \x27" ++ optionDef.name ++ "\x27 is currently unavailable.",
             itemId := some lineId, menuItemId := some menuItemId, details := none }]),
       optionDef.priceAdjustment,
       [{ groupId := g.id, optionId := optionDef.id, name := optionDef.name,
          priceAdjustment := optionDef.priceAdjustment }])

/-- Body of the per-group loop, abstracted over the selections the line
holds for the group. -/
def groupCheckCore (lineId menuItemId : String) (g : ModifierGroup) (sel : List String) :
    List ValidationError × ℚ × List SelectedModifier :=
  let minErr : List ValidationError :=
    if (sel.length : ℚ) < g.minSelection then
      [{ code := .MODIFIER_REQUIRED,
         message := "Selection required for \x27" ++ g.name ++ "\x27.",
         itemId := some lineId, menuItemId := some menuItemId,
         details := some (.minDetail g.id g.minSelection sel.length) }]
    else []
  let maxErr : List ValidationError :=
    if (sel.length : ℚ) > g.maxSelection then
      [{ code := .MODIFIER_INVALID,
         message := "Too many selections for \x27" ++ g.name ++ "\x27. Max allowed: " ++
           toString g.maxSelection ++ ".",
         itemId := some lineId, menuItemId := some menuItemId,
         details := some (.maxDetail g.id g.maxSelection sel.length) }]
    else []
  let optResults := sel.map (optionCheck lineId menuItemId g)
  (minErr ++ maxErr ++ optResults.flatMap (fun r => r.1),
   (optResults.map (fun r => r.2.1)).sum,
   optResults.flatMap (fun r => r.2.2))

/-- Per modifier group processing of a line: min and max cardinality checks
followed by per-option validation, exactly as the loop in the source pushes
them. -/
def groupCheck (it : OrderItem) (g : ModifierGroup) :
    List ValidationError × ℚ × List SelectedModifier :=
  groupCheckCore it.id it.menuItemId g (selectionsFor it g.id)

/-- Error the validator records for a line whose menu item id is unknown. -/
def itemNotFoundError (it : OrderItem) : ValidationError :=
  { code := .ITEM_NOT_FOUND,
    message := "Menu item with ID \x27" ++ it.menuItemId ++ "\x27 not found.",
    itemId := some it.id, menuItemId := some it.menuItemId, details := none }

/-- Processing of a single order line: the body of the for-loop of
validateOrder.  Returns the errors recorded for the line and the validated
line pushed to the output (empty when the menu item is not found, since the
source then continues without pushing). -/
def validateItem (menu : List MenuItem) (it : OrderItem) :
    List ValidationError × List OrderItem :=
  match menuLookup menu it.menuItemId with
  | none => ([itemNotFoundError it], [])
  | some menuDef =>
      let availErr : List ValidationError :=
        if menuDef.isAvailable then [] else
          [{ code := .ITEM_UNAVAILABLE,
             message := "Item \x27" ++ menuDef.name ++ "\x27 is currently unavailable.",
             itemId := some it.id, menuItemId := some it.menuItemId, details := none }]
      let gr := menuDef.modifierGroups.map (groupCheck it)
      let validatedItem : OrderItem :=
        { it with
          name := menuDef.name,
          unitPrice := menuDef.basePrice + (gr.map (fun r => r.2.1)).sum,
          selectedModifiers := gr.flatMap (fun r => r.2.2) }
      (availErr ++ gr.flatMap (fun r => r.1), [validatedItem])

/-- Tax rate hardcoded in the validator. -/
def TAX_RATE : ℚ := 8 / 100

/-- Shallow embedding of validateOrder.  The updatedAt timestamp written by
new Date().toISOString() is passed in as the parameter now. -/
def validateOrder (order : Order) (menu : List MenuItem) (now : String) :
    ValidationResult :=
  let results := order.items.map (validateItem menu)
  let errors := results.flatMap (fun r => r.1)
  let validatedItems := results.flatMap (fun r => r.2)
  let calculatedSubtotal := sumItems validatedItems
  let calculatedTax := calculatedSubtotal * TAX_RATE
  let calculatedTotal := calculatedSubtotal + calculatedTax
  { isValid := errors.isEmpty,
    errors := errors,
    validatedOrder :=
      { order with
        items := validatedItems,
        subtotal := round2 calculatedSubtotal,
        tax := round2 calculatedTax,
        total := round2 calculatedTotal,
        updatedAt := now } }

/-! ## Lexical matcher and quantity extraction (lib/conversationEngine.ts)

The source tokenizes on the regular expression [^a-z0-9]+ after lowercasing,
and extracts quantities with two constructed regular expressions plus a token
window fallback.  The two regular expressions are modelled by an explicit
backtracking matcher over the exact pattern shape the source builds:
word-boundary, captured alternation of digit runs and Spanish number words,
optional whitespace, an optional literal x, optional whitespace, the item
name tokens separated by whitespace, word-boundary (and the mirrored shape
for a trailing quantity). -/

/-- Character class [a-z0-9] used by the tokenizing split. -/
def isTokChar (c : Char) : Bool :=
  (decide ('a' ≤ c) && decide (c ≤ 'z')) || (decide ('0' ≤ c) && decide (c ≤ '9'))

/-- Accumulator pass for the tokenizer: cur holds the reversed current run
of token characters. -/
def tokenizeGo : List Char → List Char → List (List Char)
  | [], cur => if cur.isEmpty then [] else [cur.reverse]
  | c :: rest, cur =>
    if isTokChar c then tokenizeGo rest (c :: cur)
    else if cur.isEmpty then tokenizeGo rest [] else cur.reverse :: tokenizeGo rest []

/-- Splitting on [^a-z0-9]+ with empty pieces discarded. -/
def tokenize (s : List Char) : List (List Char) := tokenizeGo s []

/-- Word character for the JavaScript word-boundary assertion. -/
def isWordChar (c : Char) : Bool := c.isAlpha || c.isDigit || decide (c = '_')

/-- Whitespace characters recognised here for the regex whitespace class. -/
def isSpaceChar (c : Char) : Bool :=
  decide (c = ' ') || decide (c = '\t') || decide (c = '\n') || decide (c = '\x0d')

/-- Word-boundary test between an optional previous character and the head
of the remaining input. -/
def atBoundary (prev : Option Char) (next : Option Char) : Bool :=
  (match prev with | some c => isWordChar c | none => false) !=
  (match next with | some c => isWordChar c | none => false)

/-- Spanish number words, in the order of the alternation in the source. -/
def wordNumberList : List (List Char × ℚ) :=
  [("un".toList, 1), ("una".toList, 1), ("uno".toList, 1), ("dos".toList, 2),
   ("tres".toList, 3), ("cuatro".toList, 4), ("cinco".toList, 5), ("seis".toList, 6),
   ("siete".toList, 7), ("ocho".toList, 8), ("nueve".toList, 9), ("diez".toList, 10),
   ("once".toList, 11), ("doce".toList, 12), ("trece".toList, 13), ("catorce".toList, 14),
   ("quince".toList, 15), ("dieciseis".toList, 16), ("diecisiete".toList, 17),
   ("dieciocho".toList, 18), ("diecinueve".toList, 19), ("veinte".toList, 20),
   ("veintiuno".toList, 21), ("veintidos".toList, 22), ("veintitres".toList, 23),
   ("veinticuatro".toList, 24), ("veinticinco".toList, 25), ("veintiseis".toList, 26),
   ("veintisiete".toList, 27), ("veintiocho".toList, 28), ("veintinueve".toList, 29),
   ("treinta".toList, 30), ("cuarenta".toList, 40), ("cincuenta".toList, 50),
   ("sesenta".toList, 60), ("setenta".toList, 70), ("ochenta".toList, 80),
   ("noventa".toList, 90)]

/-- Lookup in the wordNumbers table. -/
def lookupWord (w : List Char) : Option ℚ :=
  (wordNumberList.find? (fun p => decide (p.1 = w))).map (fun p => p.2)

/-- Numeric value of a digit string. -/
def digitsToNat (ds : List Char) : ℕ :=
  ds.foldl (fun acc c => acc * 10 + (c.toNat - '0'.toNat)) 0

/-- Atoms of the two quantity regular expressions. -/
inductive Pat where
  | lit (tok : List Char)
  | spaces0
  | spaces1
  | optX
  | bnd
  | cap
deriving DecidableEq, Repr

/-- Last character of a candidate or literal, used as the left context for
subsequent boundary tests. -/
def lastCharOf (tok : List Char) (prev : Option Char) : Option Char :=
  match tok.getLast? with
  | some c => some c
  | none => prev

/-- Candidate strings for the captured alternation at a given position:
maximal digit runs (longest first, as backtracking of a greedy d+ tries
them) followed by the number words in alternation order. -/
def capCandidates (s : List Char) : List (List Char) :=
  let run := s.takeWhile Char.isDigit
  ((List.range run.length).map (fun k => run.take (run.length - k))) ++
    ((wordNumberList.map (fun p => p.1)).filter (fun w => w.isPrefixOf s))

/-- Backtracking matcher for a pattern at a fixed start position.  Returns
the capture of the first successful alternative, in the backtracking order
of a JavaScript regex engine.  Fuel strictly exceeds the maximal recursion
depth whenever it is at least pats.length + s.length + 1. -/
def mrunF : ℕ → List Pat → List Char → Option Char → Option (List Char)
  | 0, _, _, _ => none
  | _ + 1, [], _, _ => some []
  | f + 1, .lit tok :: rest, s, prev =>
    if tok.isPrefixOf s then mrunF f rest (s.drop tok.length) (lastCharOf tok prev)
    else none
  | f + 1, .spaces0 :: rest, s, prev =>
    match s with
    | c :: s2 =>
      if isSpaceChar c then
        (mrunF f (.spaces0 :: rest) s2 (some c)).orElse (fun _ => mrunF f rest (c :: s2) prev)
      else mrunF f rest (c :: s2) prev
    | [] => mrunF f rest [] prev
  | f + 1, .spaces1 :: rest, s, _ =>
    match s with
    | c :: s2 => if isSpaceChar c then mrunF f (.spaces0 :: rest) s2 (some c) else none
    | [] => none
  | f + 1, .optX :: rest, s, prev =>
    match s with
    | c :: s2 =>
      if decide (c = 'x') then
        (mrunF f rest s2 (some 'x')).orElse (fun _ => mrunF f rest (c :: s2) prev)
      else mrunF f rest (c :: s2) prev
    | [] => mrunF f rest [] prev
  | f + 1, .bnd :: rest, s, prev =>
    if atBoundary prev s.head? then mrunF f rest s prev else none
  | f + 1, .cap :: rest, s, _ =>
    (capCandidates s).findSome? (fun cand =>
      match mrunF f rest (s.drop cand.length) (lastCharOf cand none) with
      | some _ => some cand
      | none => none)

/-- Leftmost-match scan of a pattern over the input, as String.match does. -/
def scanPat (pats : List Pat) : List Char → Option Char → Option (List Char)
  | [], prev => mrunF (pats.length + 1) pats [] prev
  | c :: s2, prev =>
    (mrunF ((c :: s2).length + pats.length + 1) pats (c :: s2) prev).orElse
      (fun _ => scanPat pats s2 (some c))

/-- Item name tokens joined by the whitespace separator, as the source joins
escaped tokens with a one-or-more-whitespace pattern. -/
def nameSeq (toks : List (List Char)) : List Pat :=
  List.intersperse Pat.spaces1 (toks.map Pat.lit)

/-- Shallow embedding of extractQuantity.  The first argument is the already
lowercased utterance, the second the raw item name. -/
def extractQuantity (normalizedText : String) (itemName : String) : ℚ :=
  let text := normalizedText.toList
  let nameToks := tokenize (itemName.toList.map Char.toLower)
  let capture : Option (List Char) :=
    if nameToks.isEmpty then none
    else
      let beforePats := [Pat.bnd, Pat.cap, Pat.spaces0, Pat.optX, Pat.spaces0] ++
        nameSeq nameToks ++ [Pat.bnd]
      let afterPats := [Pat.bnd] ++ nameSeq nameToks ++
        [Pat.spaces0, Pat.optX, Pat.spaces0, Pat.cap, Pat.bnd]
      (scanPat beforePats text none).orElse (fun _ => scanPat afterPats text none)
  match capture with
  | some m =>
    if m.all Char.isDigit then max 1 ((digitsToNat m : ℚ))
    else
      match lookupWord m with
      | some v => v
      | none => 1
  | none =>
    let textToks := tokenize text
    match textToks.findIdx? (fun t => nameToks.any (fun u => decide (u = t))) with
    | some i =>
      let windowStart := i - 3
      let windowEnd := min textToks.length (i + 4)
      let window := (textToks.drop windowStart).take (windowEnd - windowStart)
      (window.findSome? (fun t =>
        if t.all Char.isDigit then some (max 1 ((digitsToNat t : ℚ)))
        else
          match lookupWord t with
          | some v => some v
          | none => none)).getD 1
    | none => 1

/-- Substring test, the includes method of JavaScript strings. -/
def containsSub (needle : List Char) : List Char → Bool
  | [] => needle.isPrefixOf []
  | c :: rest => needle.isPrefixOf (c :: rest) || containsSub needle rest

/-- Shallow embedding of matchesMenuItem: the full lowercased name occurs in
the utterance, or any name token of length at least three does. -/
def matchesMenuItem (normalizedText : String) (itemName : String) : Bool :=
  let t := normalizedText.toList
  let normalizedName := itemName.toList.map Char.toLower
  if containsSub normalizedName t then true
  else
    (tokenize normalizedName).any (fun tok =>
      decide (tok.length ≥ 3) && containsSub tok t)

/-! ## Order mutator (addItemFromText in lib/conversationEngine.ts) -/

/-- Result of an addItemFromText call: the new order and, when a line was
matched or created, that line (the pre-increment line in the merge case, as
the source returns newItem or existingItem). -/
structure AddItemResult where
  order : Order
  addedItem : Option OrderItem
deriving DecidableEq, Repr

/-- Prior effective tax rate used by the mutator. -/
def priorTaxRate (order : Order) : ℚ :=
  if order.subtotal > 0 then order.tax / order.subtotal else 0

/-- Shallow embedding of addItemFromText.  The line id produced from
Date.now() and the updatedAt timestamp are passed in as parameters. -/
def addItemFromText (userText : String) (menu : List MenuItem) (order : Order)
    (freshLineId : String) (now : String) : AddItemResult :=
  if menu.isEmpty then { order := order, addedItem := none }
  else
    let normalizedText := String.mk (userText.toList.map Char.toLower)
    match menu.find? (fun item => matchesMenuItem normalizedText item.name) with
    | none => { order := order, addedItem := none }
    | some matchedMenuItem =>
      let quantity := extractQuantity normalizedText matchedMenuItem.name
      let existingItem := order.items.find? (fun item =>
        decide (item.menuItemId = matchedMenuItem.id) && item.selectedModifiers.isEmpty)
      let newItem : Option OrderItem :=
        match existingItem with
        | some _ => none
        | none => some
          { id := freshLineId, menuItemId := matchedMenuItem.id,
            name := matchedMenuItem.name, quantity := quantity,
            unitPrice := matchedMenuItem.basePrice, selectedModifiers := [],
            specialInstructions := none }
      let updatedItems : List OrderItem :=
        match existingItem, newItem with
        | some e, _ => order.items.map (fun item =>
            if decide (item.id = e.id) then { item with quantity := item.quantity + quantity }
            else item)
        | none, some n => order.items ++ [n]
        | none, none => order.items ++ []
      let taxRate := priorTaxRate order
      let subtotal := sumItems updatedItems
      let tax := round2 (subtotal * taxRate)
      let total := round2 (subtotal + tax)
      { order :=
          { order with
            items := updatedItems, subtotal := subtotal, tax := tax,
            total := total, updatedAt := now },
        addedItem :=
          match newItem, existingItem with
          | some n, _ => some n
          | none, some e => some e
          | none, none => none }

/-! ## Conversation orchestrator (advanceConversation) -/

/-- Finalize-intent trigger: the case-insensitive test of the regular
expression confirm-or-place-order against the user text. -/
def finalizeIntent (userText : String) : Bool :=
  let t := userText.toList.map Char.toLower
  containsSub "confirm".toList t || containsSub "place order".toList t

/-- Environment of one advanceConversation call: the fetched menu, the reply
the external generator returned, and the identifiers and timestamp the
source derives from Date.now.  The model covers the turn in which the menu
fetch and the generator call succeed. -/
structure AdvanceEnv where
  menu : List MenuItem
  aiReply : String
  userTurnId : String
  assistantTurnId : String
  freshLineId : String
  now : String
deriving Repr

/-- Shallow embedding of advanceConversation. -/
def advanceConversation (state : ConversationState) (userText : String)
    (env : AdvanceEnv) : ConversationState :=
  let userTurn : ConversationTurn :=
    { id := env.userTurnId, role := .user, content := userText,
      timestamp := env.now, metadata := none }
  let updatedHistory := state.history ++ [userTurn]
  let orderUpdate := addItemFromText userText env.menu state.currentOrder
    env.freshLineId env.now
  let metaItemAdded := orderUpdate.addedItem.map (fun it => it.name)
  let guard : Bool :=
    decide (state.currentOrder.status = .pending) && finalizeIntent userText
  let branch : Order × String × TurnMetadata :=
    if guard then
      let validation := validateOrder state.currentOrder env.menu env.now
      if validation.isValid then
        ({ orderUpdate.order with status := .confirmed }, env.aiReply,
         { itemAdded := metaItemAdded, orderStatusChanged := some "confirmed" })
      else
        (orderUpdate.order,
         "I can\x27t place the order yet. " ++
           String.intercalate " " (validation.errors.map (fun e => e.message)),
         { itemAdded := metaItemAdded, orderStatusChanged := none })
    else
      (orderUpdate.order, env.aiReply,
       { itemAdded := metaItemAdded, orderStatusChanged := none })
  let assistantTurn : ConversationTurn :=
    { id := env.assistantTurnId, role := .assistant, content := branch.2.1,
      timestamp := env.now, metadata := some branch.2.2 }
  { conversationId := state.conversationId,
    history := updatedHistory ++ [assistantTurn],
    currentOrder := branch.1,
    lastUpdated := env.now }

/-! ## Order submission client (src/lib/order_submission_client.ts) -/

structure RetryConfig where
  maxRetries : ℕ
  initialDelayMs : ℚ
  backoffFactor : ℚ
deriving Repr

def RETRY_CONFIG : RetryConfig :=
  { maxRetries := 3, initialDelayMs := 1000, backoffFactor := 2 }

/-- Parsed JSON body of a fulfillment response, restricted to the fields the
client reads.  The message field doubles as the error body message with the
statusText fallback already applied. -/
structure RespBody where
  confirmationId : Option String
  estimatedWaitTimeMinutes : Option ℚ
  message : Option String
deriving DecidableEq, Repr

/-- Outcome of one fetch of the fulfillment endpoint: an HTTP response, or a
thrown exception which is a network error (TypeError or FetchError) or some
other failure. -/
inductive FetchOutcome where
  | http (status : ℕ) (body : RespBody)
  | exn (isNetworkError : Bool) (message : String)
deriving DecidableEq, Repr

/-- Model of the SubmissionResult union: the success data or the structured
error, with the HTTP error body carried as detail where the source attaches
it. -/
inductive SubmissionResult where
  | success (confirmationId : String) (estimatedWaitTimeMinutes : ℚ) (status : String)
  | failure (code : String) (message : String) (details : Option RespBody)
deriving DecidableEq, Repr

/-- JavaScript truthiness fallback estimatedWaitTimeMinutes-or-15: both a
missing field and a zero value fall back. -/
def waitOrDefault (w : Option ℚ) : ℚ :=
  match w with
  | some v => if v = 0 then 15 else v
  | none => 15

/-- One pass of the retry while-loop of submitOrder, with the loop guard
attempt at-most-maxRetries carried as structural fuel equal to
maxRetries + 1 - attempt.  Returns the result and the list of delays slept
before retries, in order. -/
def submitLoop (env : ℕ → FetchOutcome) :
    ℕ → ℕ → ℚ → List ℚ → SubmissionResult × List ℚ
  | 0, _, _, log =>
    (.failure "TIMEOUT" "Max retries exceeded while submitting order." none, log)
  | fuel + 1, attempt, currentDelay, log =>
    match env attempt with
    | .http status body =>
      if 200 ≤ status ∧ status < 300 then
        match body.confirmationId with
        | some cid =>
          if cid = "" then
            (.failure "INVALID_RESPONSE" "External API did not return a confirmation ID." none, log)
          else
            (.success cid (waitOrDefault body.estimatedWaitTimeMinutes) "received", log)
        | none =>
          (.failure "INVALID_RESPONSE" "External API did not return a confirmation ID." none, log)
      else
        if (500 ≤ status ∨ status = 429) ∧ attempt < RETRY_CONFIG.maxRetries then
          submitLoop env fuel (attempt + 1) (currentDelay * RETRY_CONFIG.backoffFactor)
            (log ++ [currentDelay])
        else
          (.failure ("HTTP_" ++ toString status)
            (body.message.getD ("External API returned status " ++ toString status))
            (some body), log)
    | .exn isNetworkError msg =>
      if isNetworkError ∧ attempt < RETRY_CONFIG.maxRetries then
        submitLoop env fuel (attempt + 1) (currentDelay * RETRY_CONFIG.backoffFactor)
          (log ++ [currentDelay])
      else
        (.failure "NETWORK_ERROR" msg none, log)

/-- Shallow embedding of submitOrder.  The order payload influences only the
request body, which the abstract endpoint environment already accounts for;
urlConfigured models whether config.orderSubmissionUrl is set. -/
def submitOrder (urlConfigured : Bool) (_order : Order) (env : ℕ → FetchOutcome) :
    SubmissionResult × List ℚ :=
  if urlConfigured then
    submitLoop env (RETRY_CONFIG.maxRetries + 1) 0 RETRY_CONFIG.initialDelayMs []
  else
    (.failure "CONFIG_ERROR" "Order submission URL is not configured." none, [])

/-! ## Concrete fixtures used by witnesses and counterexamples -/

def burgerItem : MenuItem :=
  { id := "menu-burger", name := "Burger", description := "A burger",
    basePrice := 5, category := "Food", isAvailable := true, modifierGroups := [] }

def emptyOrder : Order :=
  { id := "ord-1", customerId := some "guest", items := [], subtotal := 0,
    tax := 0, total := 0, status := .pending, createdAt := "t0", updatedAt := "t0" }

/-- Menu item whose base price is 0.196, not a whole number of cents. -/
def oddPriceItem : MenuItem :=
  { id := "menu-odd", name := "Odd", description := "", basePrice := 49/250,
    category := "Food", isAvailable := true, modifierGroups := [] }

def oddPriceOrder : Order :=
  { id := "ord-2", customerId := none,
    items := [{ id := "line-1", menuItemId := "menu-odd", name := "Odd",
                quantity := 1, unitPrice := 0, selectedModifiers := [],
                specialInstructions := none }],
    subtotal := 0, tax := 0, total := 0, status := .pending,
    createdAt := "t0", updatedAt := "t0" }

def pastelItem : MenuItem :=
  { id := "menu-pastel", name := "Pastel", description := "", basePrice := 107/100,
    category := "Food", isAvailable := true, modifierGroups := [] }

/-- Order holding one previously priced line with subtotal 1 and tax 0.08,
so its effective tax rate is 0.08. -/
def priorOrder : Order :=
  { id := "ord-3", customerId := none,
    items := [{ id := "line-1", menuItemId := "menu-thing", name := "Thing",
                quantity := 1, unitPrice := 1, selectedModifiers := [],
                specialInstructions := none }],
    subtotal := 1, tax := 2/25, total := 27/25, status := .pending,
    createdAt := "t0", updatedAt := "t0" }

/-- Line referencing a menu item id absent from the menu. -/
def ghostLine : OrderItem :=
  { id := "line-9", menuItemId := "menu-ghost", name := "Ghost",
    quantity := 2, unitPrice := 3, selectedModifiers := [],
    specialInstructions := none }

/-- Order whose single line references a menu item id absent from the menu. -/
def ghostOrder : Order :=
  { id := "ord-4", customerId := none, items := [ghostLine],
    subtotal := 6, tax := 0, total := 6, status := .pending,
    createdAt := "t0", updatedAt := "t0" }

/-! ## C7: quantity extraction -/

/-- C7 counterexample: the claim says the utterance with the English word
two yields quantity 2; the code yields 1, because the number-word table is
Spanish and the plural form defeats both constructed regular expressions
and the token window. -/
theorem extractQuantity_two_cheeseburgers_ne_two :
    ¬ extractQuantity "two cheeseburgers" "Cheeseburger" = 2 := by
  decide

/-- C7 (amended): for the utterance with the English word two and a catalog
item named Cheeseburger, quantity extraction yields 1, the default (the
spelled-out number words the code supports are Spanish: dos cheeseburger
yields 2); for the bare utterance cheeseburger with no number, it yields 1. -/
theorem extractQuantity_cheeseburger_cases :
    extractQuantity "two cheeseburgers" "Cheeseburger" = 1 ∧
    extractQuantity "cheeseburger" "Cheeseburger" = 1 ∧
    extractQuantity "dos cheeseburger" "Cheeseburger" = 2 := by
  refine ⟨by with_unfolding_all decide, by with_unfolding_all decide, by with_unfolding_all decide⟩

/-! ## C4: lines whose menu item is unknown -/

/-- C4 counterexample: the order holds one line whose menu item id is not in
the menu; the claim says the line is carried through to the validated Order,
but the validated Order's line list is empty. -/
theorem validateOrder_drops_unknown_line :
    ghostOrder.items.length = 1 ∧
    (validateOrder ghostOrder [burgerItem] "t1").validatedOrder.items = [] := by
  decide

/-- C4 (amended): for every order line whose referenced menu item id is not
in the menu, validateOrder records an item-not-found error, stops processing
that line, and omits the line from the returned validated Order (it is not
carried through). -/
theorem validateOrder_item_not_found (order : Order) (menu : List MenuItem)
    (now : String) (it : OrderItem) (hmem : it ∈ order.items)
    (hlk : menuLookup menu it.menuItemId = none) :
    validateItem menu it = ([itemNotFoundError it], []) ∧
    itemNotFoundError it ∈ (validateOrder order menu now).errors ∧
    (validateOrder order menu now).errors =
      order.items.flatMap (fun j => (validateItem menu j).1) ∧
    (validateOrder order menu now).validatedOrder.items =
      order.items.flatMap (fun j => (validateItem menu j).2) := by
  have hstep : validateItem menu it = ([itemNotFoundError it], []) := by
    unfold validateItem
    rw [hlk]
  have herr : (validateOrder order menu now).errors =
      order.items.flatMap (fun j => (validateItem menu j).1) := by
    simp [validateOrder, List.flatMap_map]
  have hitems : (validateOrder order menu now).validatedOrder.items =
      order.items.flatMap (fun j => (validateItem menu j).2) := by
    simp [validateOrder, List.flatMap_map]
  refine ⟨hstep, ?_, herr, hitems⟩
  rw [herr]
  exact List.mem_flatMap_of_mem hmem (by rw [hstep]; exact List.mem_singleton.mpr rfl)

/-- C4 witness: instantiation of the amended theorem at the concrete ghost
order. -/
theorem validateOrder_item_not_found_witness :
    validateItem [burgerItem] ghostLine = ([itemNotFoundError ghostLine], []) ∧
    itemNotFoundError ghostLine ∈ (validateOrder ghostOrder [burgerItem] "t1").errors ∧
    (validateOrder ghostOrder [burgerItem] "t1").errors =
      ghostOrder.items.flatMap (fun j => (validateItem [burgerItem] j).1) ∧
    (validateOrder ghostOrder [burgerItem] "t1").validatedOrder.items =
      ghostOrder.items.flatMap (fun j => (validateItem [burgerItem] j).2) :=
  validateOrder_item_not_found ghostOrder [burgerItem] "t1" ghostLine
    (by with_unfolding_all decide) (by with_unfolding_all decide)

/-! ## C6: mutator pricing -/

/-- C6 counterexample: adding a 1.07 item to an order with subtotal 1 and
tax 0.08 yields stored tax 0.17, while the new subtotal times the prior
effective tax rate is 0.1656; the code stores the rounded value, so the
claimed exact equality fails. -/
theorem addItemFromText_tax_not_exact :
    ¬ (addItemFromText "pastel" [pastelItem] priorOrder "line-2" "t1").order.tax =
      (addItemFromText "pastel" [pastelItem] priorOrder "line-2" "t1").order.subtotal *
        priorTaxRate priorOrder := by
  with_unfolding_all decide

/-- C6 (amended): whenever the mutator matches a menu item, the resulting
order's tax equals the new subtotal multiplied by the prior effective tax
rate and then rounded to two decimal places, and the new subtotal is the
unrounded sum of unit price times quantity over all resulting lines. -/
theorem addItemFromText_pricing (userText : String) (menu : List MenuItem)
    (order : Order) (freshLineId now : String) (mi : MenuItem)
    (hfind : menu.find? (fun item =>
      matchesMenuItem (String.mk (userText.toList.map Char.toLower)) item.name) = some mi) :
    (addItemFromText userText menu order freshLineId now).order.tax =
      round2 ((addItemFromText userText menu order freshLineId now).order.subtotal *
        priorTaxRate order) ∧
    (addItemFromText userText menu order freshLineId now).order.subtotal =
      sumItems (addItemFromText userText menu order freshLineId now).order.items := by
  have hne : menu.isEmpty = false := by
    cases menu with
    | nil => simp [List.find?] at hfind
    | cons a l => rfl
  simp only [addItemFromText, hne, Bool.false_eq_true, if_false, hfind]
  cases h : order.items.find? (fun item =>
      decide (item.menuItemId = mi.id) && item.selectedModifiers.isEmpty) with
  | none => simp
  | some e => simp

/-- C6 witness: instantiation of the pricing theorem at the concrete pastel
order. -/
theorem addItemFromText_pricing_witness :
    (addItemFromText "pastel" [pastelItem] priorOrder "line-2" "t1").order.tax =
      round2 ((addItemFromText "pastel" [pastelItem] priorOrder "line-2" "t1").order.subtotal *
        priorTaxRate priorOrder) ∧
    (addItemFromText "pastel" [pastelItem] priorOrder "line-2" "t1").order.subtotal =
      sumItems (addItemFromText "pastel" [pastelItem] priorOrder "line-2" "t1").order.items :=
  addItemFromText_pricing "pastel" [pastelItem] priorOrder "line-2" "t1" pastelItem (by with_unfolding_all decide)

/-! ## C3: submission retry policy -/

/-- Transient HTTP responses make the loop sleep the current delay, double
it, and move to the next attempt, while retry budget remains. -/
theorem submitLoop_transient_step (env : ℕ → FetchOutcome) (fuel attempt : ℕ)
    (delay : ℚ) (log : List ℚ) (s : ℕ) (b : RespBody)
    (henv : env attempt = .http s b) (hnok : ¬ (200 ≤ s ∧ s < 300))
    (htr : 500 ≤ s ∨ s = 429) (hbud : attempt < RETRY_CONFIG.maxRetries) :
    submitLoop env (fuel + 1) attempt delay log =
      submitLoop env fuel (attempt + 1) (delay * RETRY_CONFIG.backoffFactor)
        (log ++ [delay]) := by
  simp only [submitLoop, henv]
  rw [if_neg hnok, if_pos ⟨htr, hbud⟩]

/-- A success response with a nonempty confirmation id ends the loop with a
success result. -/
theorem submitLoop_success_step (env : ℕ → FetchOutcome) (fuel attempt : ℕ)
    (delay : ℚ) (log : List ℚ) (s : ℕ) (b : RespBody) (cid : String)
    (henv : env attempt = .http s b) (hok : 200 ≤ s ∧ s < 300)
    (hcid : b.confirmationId = some cid) (hne : cid ≠ "") :
    submitLoop env (fuel + 1) attempt delay log =
      (.success cid (waitOrDefault b.estimatedWaitTimeMinutes) "received", log) := by
  simp only [submitLoop, henv, hcid]
  rw [if_pos hok, if_neg hne]

/-- A non-success response at the final attempt ends the loop with the
structured HTTP failure, whatever its status class. -/
theorem submitLoop_final_failure (env : ℕ → FetchOutcome) (fuel attempt : ℕ)
    (delay : ℚ) (log : List ℚ) (s : ℕ) (b : RespBody)
    (hatt : attempt = RETRY_CONFIG.maxRetries)
    (henv : env attempt = .http s b) (hnok : ¬ (200 ≤ s ∧ s < 300)) :
    submitLoop env (fuel + 1) attempt delay log =
      (.failure ("HTTP_" ++ toString s)
        (b.message.getD ("External API returned status " ++ toString s))
        (some b), log) := by
  subst hatt
  simp only [submitLoop, henv]
  rw [if_neg hnok, if_neg (by simp)]

/-- C3: submitOrder retries transient 503-equivalent responses with delays
1000, 2000, 4000 (initial delay doubled before each subsequent retry); three
transient failures followed by a success yield a success result, and
transient failures on all four attempts yield the terminal HTTP failure
after exactly three retries. -/
theorem submitOrder_retry_policy :
    (∀ (order : Order) (env : ℕ → FetchOutcome) (stat : ℕ → ℕ) (bd : ℕ → RespBody)
       (sb : RespBody) (sst : ℕ) (cid : String),
       (∀ i, i < 3 → env i = .http (stat i) (bd i)) →
       (∀ i, i < 3 → 500 ≤ stat i ∨ stat i = 429) →
       env 3 = .http sst sb → 200 ≤ sst → sst < 300 →
       sb.confirmationId = some cid → cid ≠ "" →
       submitOrder true order env =
         (.success cid (waitOrDefault sb.estimatedWaitTimeMinutes) "received",
          [1000, 2000, 4000])) ∧
    (∀ (order : Order) (env : ℕ → FetchOutcome) (stat : ℕ → ℕ) (bd : ℕ → RespBody),
       (∀ i, i ≤ 3 → env i = .http (stat i) (bd i)) →
       (∀ i, i ≤ 3 → 500 ≤ stat i ∨ stat i = 429) →
       submitOrder true order env =
         (.failure ("HTTP_" ++ toString (stat 3))
            ((bd 3).message.getD ("External API returned status " ++ toString (stat 3)))
            (some (bd 3)), [1000, 2000, 4000])) := by
  have hnok : ∀ s : ℕ, 500 ≤ s ∨ s = 429 → ¬ (200 ≤ s ∧ s < 300) := by
    rintro s (h | h) ⟨h1, h2⟩ <;> omega
  constructor
  · intro order env stat bd sb sst cid henv htr henv3 hok1 hok2 hcid hne
    show submitLoop env 4 0 1000 [] = _
    rw [submitLoop_transient_step env 3 0 1000 [] (stat 0) (bd 0) (henv 0 (by omega))
        (hnok _ (htr 0 (by omega))) (htr 0 (by omega)) (by norm_num [RETRY_CONFIG])]
    rw [submitLoop_transient_step env 2 1 _ _ (stat 1) (bd 1) (henv 1 (by omega))
        (hnok _ (htr 1 (by omega))) (htr 1 (by omega)) (by norm_num [RETRY_CONFIG])]
    rw [submitLoop_transient_step env 1 2 _ _ (stat 2) (bd 2) (henv 2 (by omega))
        (hnok _ (htr 2 (by omega))) (htr 2 (by omega)) (by norm_num [RETRY_CONFIG])]
    rw [submitLoop_success_step env 0 3 _ _ sst sb cid henv3 ⟨hok1, hok2⟩ hcid hne]
    norm_num [RETRY_CONFIG]
  · intro order env stat bd henv htr
    show submitLoop env 4 0 1000 [] = _
    rw [submitLoop_transient_step env 3 0 1000 [] (stat 0) (bd 0) (henv 0 (by omega))
        (hnok _ (htr 0 (by omega))) (htr 0 (by omega)) (by norm_num [RETRY_CONFIG])]
    rw [submitLoop_transient_step env 2 1 _ _ (stat 1) (bd 1) (henv 1 (by omega))
        (hnok _ (htr 1 (by omega))) (htr 1 (by omega)) (by norm_num [RETRY_CONFIG])]
    rw [submitLoop_transient_step env 1 2 _ _ (stat 2) (bd 2) (henv 2 (by omega))
        (hnok _ (htr 2 (by omega))) (htr 2 (by omega)) (by norm_num [RETRY_CONFIG])]
    rw [submitLoop_final_failure env 0 3 _ _ (stat 3) (bd 3)
          (by norm_num [RETRY_CONFIG]) (henv 3 (by omega)) (hnok _ (htr 3 (by omega)))]
    norm_num [RETRY_CONFIG]

/-- Fulfillment endpoint that returns 503 on the first three attempts and a
well-formed success on the fourth. -/
def retryThenOkEnv : ℕ → FetchOutcome := fun i =>
  if i < 3 then .http 503 { confirmationId := none, estimatedWaitTimeMinutes := none,
                            message := some "Service Unavailable" }
  else .http 200 { confirmationId := some "CONF-1", estimatedWaitTimeMinutes := none,
                   message := none }

/-- C3 witness: the retry theorem applied to a concrete endpoint giving 503
three times then succeeding. -/
theorem submitOrder_retry_policy_witness :
    submitOrder true emptyOrder retryThenOkEnv =
      (.success "CONF-1" 15 "received", [1000, 2000, 4000]) := by
  have h := submitOrder_retry_policy.1 emptyOrder retryThenOkEnv (fun _ => 503)
    (fun _ => { confirmationId := none, estimatedWaitTimeMinutes := none,
                message := some "Service Unavailable" })
    { confirmationId := some "CONF-1", estimatedWaitTimeMinutes := none, message := none }
    200 "CONF-1"
    (fun i hi => by simp [retryThenOkEnv, hi]) (fun i hi => Or.inl (by norm_num))
    (by simp [retryThenOkEnv]) (by omega) (by omega) rfl (by simp)
  simpa [waitOrDefault] using h

/-! ## C1: validator totals -/

theorem roundHalf_intCast (n : ℤ) : roundHalf (n : ℚ) = n := by
  unfold roundHalf
  rcases le_or_lt 0 (n : ℚ) with h | h
  · rw [if_pos h, Int.floor_int_add]
    norm_num
  · rw [if_neg (not_le.mpr h)]
    have : -(n : ℚ) = ((-n : ℤ) : ℚ) := by push_cast; ring
    rw [this, Int.floor_int_add]
    norm_num

theorem roundHalf_neg (x : ℚ) : roundHalf (-x) = -roundHalf x := by
  unfold roundHalf
  rcases lt_trichotomy x 0 with h | h | h
  · rw [if_pos (by linarith), if_neg (not_le.mpr h), neg_neg]
  · subst h
    norm_num
  · rw [if_neg (by simpa using not_le.mpr h), if_pos (le_of_lt h), neg_neg]

theorem round2_neg (q : ℚ) : round2 (-q) = -round2 q := by
  unfold round2
  rw [neg_mul, roundHalf_neg]
  push_cast
  ring

/-- Values that are whole numbers of cents are fixed by round2. -/
theorem round2_cents (n : ℤ) : round2 ((n : ℚ) / 100) = (n : ℚ) / 100 := by
  unfold round2
  rw [div_mul_cancel₀ _ (by norm_num : (100 : ℚ) ≠ 0), roundHalf_intCast]

/-- Adding a whole number of cents to a value of equal sign commutes with
round2. -/
theorem round2_add_cents (n : ℤ) (t : ℚ)
    (hsign : 0 ≤ (n : ℚ) ∧ 0 ≤ t ∨ (n : ℚ) ≤ 0 ∧ t ≤ 0) :
    round2 ((n : ℚ) / 100 + t) = (n : ℚ) / 100 + round2 t := by
  have key : ∀ (m : ℤ) (u : ℚ), 0 ≤ (m : ℚ) → 0 ≤ u →
      round2 ((m : ℚ) / 100 + u) = (m : ℚ) / 100 + round2 u := by
    intro m u hm hu
    unfold round2
    have hexp : ((m : ℚ) / 100 + u) * 100 = (m : ℚ) + u * 100 := by
      field_simp
    rw [hexp]
    have hu100 : 0 ≤ u * 100 := mul_nonneg hu (by norm_num)
    have h1 : roundHalf ((m : ℚ) + u * 100) = m + roundHalf (u * 100) := by
      unfold roundHalf
      rw [if_pos (by linarith), if_pos hu100, add_assoc, Int.floor_int_add]
    rw [h1]
    push_cast
    ring
  rcases hsign with ⟨hn, ht⟩ | ⟨hn, ht⟩
  · exact key n t hn ht
  · have h := key (-n) (-t) (by push_cast; linarith) (by linarith)
    have hrw : ((-n : ℤ) : ℚ) / 100 + -t = -((n : ℚ) / 100 + t) := by push_cast; ring
    rw [hrw, round2_neg, round2_neg] at h
    have hrw2 : ((-n : ℤ) : ℚ) / 100 = -((n : ℚ) / 100) := by push_cast; ring
    rw [hrw2] at h
    linarith

/-- C1 counterexample: with a base price of 0.196 the validated totals are
subtotal 0.20, tax 0.02, total 0.21, and total differs from subtotal plus
tax; the claimed identity fails once rounding interleaves with non-cent
prices. -/
theorem validateOrder_total_ne_subtotal_add_tax :
    (validateOrder oddPriceOrder [oddPriceItem] "t1").validatedOrder.total ≠
      (validateOrder oddPriceOrder [oddPriceItem] "t1").validatedOrder.subtotal +
        (validateOrder oddPriceOrder [oddPriceItem] "t1").validatedOrder.tax := by
  with_unfolding_all decide

/-- C1 (amended): whenever the recomputed pre-rounding subtotal is a whole
number of cents (as it is when all menu prices are whole cents and all
quantities integral), the validated Order satisfies total equals subtotal
plus tax; and unconditionally its subtotal is the sum of unit price times
quantity over its lines, rounded to two decimal places.  The subtotal
conjunct carries no hypothesis; only the total identity needs the
whole-cents premise. -/
theorem validateOrder_totals (order : Order) (menu : List MenuItem) (now : String) :
    ((∃ n : ℤ,
        sumItems (validateOrder order menu now).validatedOrder.items = (n : ℚ) / 100) →
      (validateOrder order menu now).validatedOrder.total =
        (validateOrder order menu now).validatedOrder.subtotal +
          (validateOrder order menu now).validatedOrder.tax) ∧
    (validateOrder order menu now).validatedOrder.subtotal =
      round2 (sumItems (validateOrder order menu now).validatedOrder.items) := by
  have h1 : (validateOrder order menu now).validatedOrder.subtotal =
      round2 (sumItems (validateOrder order menu now).validatedOrder.items) := rfl
  have h2 : (validateOrder order menu now).validatedOrder.tax =
      round2 (sumItems (validateOrder order menu now).validatedOrder.items * TAX_RATE) := rfl
  have h3 : (validateOrder order menu now).validatedOrder.total =
      round2 (sumItems (validateOrder order menu now).validatedOrder.items +
        sumItems (validateOrder order menu now).validatedOrder.items * TAX_RATE) := rfl
  refine ⟨?_, h1⟩
  rintro ⟨n, hn⟩
  rw [h1, h2, h3, hn]
  rcases le_or_lt 0 ((n : ℚ)) with hpos | hneg
  · have ht : 0 ≤ (n : ℚ) / 100 * TAX_RATE :=
      mul_nonneg (div_nonneg hpos (by norm_num)) (by norm_num [TAX_RATE])
    rw [round2_add_cents n _ (Or.inl ⟨hpos, ht⟩), round2_cents]
  · have ht : (n : ℚ) / 100 * TAX_RATE ≤ 0 := by
      apply mul_nonpos_of_nonpos_of_nonneg
      · linarith
      · norm_num [TAX_RATE]
    rw [round2_add_cents n _ (Or.inr ⟨le_of_lt hneg, ht⟩), round2_cents]

/-- Order with one whole-cent line used to witness the totals theorem. -/
def centOrder : Order :=
  { id := "ord-5", customerId := none,
    items := [{ id := "line-1", menuItemId := "menu-burger", name := "Burger",
                quantity := 2, unitPrice := 0, selectedModifiers := [],
                specialInstructions := none }],
    subtotal := 0, tax := 0, total := 0, status := .pending,
    createdAt := "t0", updatedAt := "t0" }

/-- C1 witness: the totals theorem applied to a concrete whole-cent order,
discharging the whole-cents premise of the total identity there. -/
theorem validateOrder_totals_witness :
    (validateOrder centOrder [burgerItem] "t1").validatedOrder.total =
      (validateOrder centOrder [burgerItem] "t1").validatedOrder.subtotal +
        (validateOrder centOrder [burgerItem] "t1").validatedOrder.tax ∧
    (validateOrder centOrder [burgerItem] "t1").validatedOrder.subtotal =
      round2 (sumItems (validateOrder centOrder [burgerItem] "t1").validatedOrder.items) :=
  ⟨(validateOrder_totals centOrder [burgerItem] "t1").1
      ⟨1000, by with_unfolding_all decide⟩,
   (validateOrder_totals centOrder [burgerItem] "t1").2⟩

/-! ## C2: finalize guardrail -/

/-- The mutator never changes the order status. -/
theorem addItemFromText_status (userText : String) (menu : List MenuItem)
    (order : Order) (freshLineId now : String) :
    (addItemFromText userText menu order freshLineId now).order.status = order.status := by
  dsimp only [addItemFromText]
  split
  · rfl
  · split
    · rfl
    · rfl

/-- C2: if the current order is pending, the user text matches the finalize
intent, and the order fails validation against the fetched menu, then the
advanced state still has a pending order and the appended assistant turn
carries the enumerated validation error messages in place of the generated
reply. -/
theorem advanceConversation_guardrail (state : ConversationState)
    (userText : String) (env : AdvanceEnv)
    (hp : state.currentOrder.status = .pending)
    (hf : finalizeIntent userText = true)
    (hi : (validateOrder state.currentOrder env.menu env.now).isValid = false) :
    (advanceConversation state userText env).currentOrder.status = .pending ∧
    ∃ t, (advanceConversation state userText env).history.getLast? = some t ∧
      t.role = .assistant ∧
      t.content = "I can\x27t place the order yet. " ++ String.intercalate " "
        ((validateOrder state.currentOrder env.menu env.now).errors.map
          (fun e => e.message)) := by
  have hg : (decide (state.currentOrder.status = OrderStatus.pending) &&
      finalizeIntent userText) = true := by
    rw [hp, hf]
    simp
  dsimp only [advanceConversation]
  rw [hg, if_pos rfl, hi]
  rw [if_neg (by simp)]
  refine ⟨?_, ⟨_, List.getLast?_concat _, rfl, rfl⟩⟩
  rw [addItemFromText_status, hp]

/-- Menu item marked unavailable, used to drive the guardrail. -/
def soldOutItem : MenuItem :=
  { id := "menu-soldout", name := "Soup", description := "", basePrice := 3,
    category := "Food", isAvailable := false, modifierGroups := [] }

/-- Pending order holding the unavailable item. -/
def soldOutOrder : Order :=
  { id := "ord-6", customerId := none,
    items := [{ id := "line-1", menuItemId := "menu-soldout", name := "Soup",
                quantity := 1, unitPrice := 3, selectedModifiers := [],
                specialInstructions := none }],
    subtotal := 3, tax := 0, total := 3, status := .pending,
    createdAt := "t0", updatedAt := "t0" }

def soldOutState : ConversationState :=
  { conversationId := "conv-1", history := [], currentOrder := soldOutOrder,
    lastUpdated := "t0" }

def soldOutEnv : AdvanceEnv :=
  { menu := [soldOutItem], aiReply := "Your order is confirmed!",
    userTurnId := "turn-1", assistantTurnId := "turn-2",
    freshLineId := "line-2", now := "t1" }

/-- C2 witness: the guardrail theorem applied to a pending order holding an
unavailable item and the user text please confirm. -/
theorem advanceConversation_guardrail_witness :
    (advanceConversation soldOutState "please confirm" soldOutEnv).currentOrder.status =
      .pending ∧
    ∃ t, (advanceConversation soldOutState "please confirm" soldOutEnv).history.getLast? =
        some t ∧
      t.role = .assistant ∧
      t.content = "I can\x27t place the order yet. " ++ String.intercalate " "
        ((validateOrder soldOutState.currentOrder soldOutEnv.menu soldOutEnv.now).errors.map
          (fun e => e.message)) :=
  advanceConversation_guardrail soldOutState "please confirm" soldOutEnv
    (by with_unfolding_all decide) (by with_unfolding_all decide)
    (by with_unfolding_all decide)

/-! ## C5: mutator merge rule -/

/-- C5: the mutator merges exactly when some existing line references the
matched menu item id with zero selected modifiers - the first such line has
its quantity incremented by the extracted quantity - and otherwise appends a
new line with the fresh line id, the matched base price as provisional unit
price, and no modifiers; in particular two separate turns adding a burger
yield one line of quantity 2. -/
theorem addItemFromText_merge (userText : String) (menu : List MenuItem)
    (order : Order) (freshLineId now : String) (mi : MenuItem)
    (hfind : menu.find? (fun item =>
      matchesMenuItem (String.mk (userText.toList.map Char.toLower)) item.name) = some mi) :
    ((order.items.find? (fun item =>
        decide (item.menuItemId = mi.id) && item.selectedModifiers.isEmpty)).isSome = true ↔
      ∃ it ∈ order.items, it.menuItemId = mi.id ∧ it.selectedModifiers = []) ∧
    (∀ e, order.items.find? (fun item =>
        decide (item.menuItemId = mi.id) && item.selectedModifiers.isEmpty) = some e →
      (addItemFromText userText menu order freshLineId now).order.items =
        order.items.map (fun item =>
          if decide (item.id = e.id) = true then
            { item with quantity := item.quantity +
                extractQuantity (String.mk (userText.toList.map Char.toLower)) mi.name }
          else item) ∧
      (addItemFromText userText menu order freshLineId now).addedItem = some e) ∧
    (order.items.find? (fun item =>
        decide (item.menuItemId = mi.id) && item.selectedModifiers.isEmpty) = none →
      (addItemFromText userText menu order freshLineId now).order.items =
        order.items ++
          [{ id := freshLineId, menuItemId := mi.id, name := mi.name,
             quantity := extractQuantity (String.mk (userText.toList.map Char.toLower)) mi.name,
             unitPrice := mi.basePrice, selectedModifiers := [],
             specialInstructions := none }] ∧
      (addItemFromText userText menu order freshLineId now).addedItem =
        some { id := freshLineId, menuItemId := mi.id, name := mi.name,
               quantity := extractQuantity (String.mk (userText.toList.map Char.toLower)) mi.name,
               unitPrice := mi.basePrice, selectedModifiers := [],
               specialInstructions := none }) ∧
    (addItemFromText "a burger" [burgerItem]
        (addItemFromText "a burger" [burgerItem] emptyOrder "line-1" "t1").order
        "line-2" "t2").order.items =
      [{ id := "line-1", menuItemId := "menu-burger", name := "Burger",
         quantity := 2, unitPrice := 5, selectedModifiers := [],
         specialInstructions := none }] := by
  have hne : menu.isEmpty = false := by
    cases menu with
    | nil => simp [List.find?] at hfind
    | cons a l => rfl
  refine ⟨?_, ?_, ?_, by with_unfolding_all decide⟩
  · rw [List.find?_isSome]
    constructor
    · rintro ⟨x, hx, hp⟩
      simp only [Bool.and_eq_true, decide_eq_true_eq, List.isEmpty_iff] at hp
      exact ⟨x, hx, hp⟩
    · rintro ⟨x, hx, h1, h2⟩
      exact ⟨x, hx, by simp [h1, h2]⟩
  · intro e he
    simp only [addItemFromText, hne, Bool.false_eq_true, if_false, hfind, he]
    simp
  · intro he
    simp only [addItemFromText, hne, Bool.false_eq_true, if_false, hfind, he]
    simp

/-- Result of the first burger turn. -/
def firstBurgerOrder : Order :=
  (addItemFromText "a burger" [burgerItem] emptyOrder "line-1" "t1").order

/-- The line created by the first burger turn. -/
def firstBurgerLine : OrderItem :=
  { id := "line-1", menuItemId := "menu-burger", name := "Burger",
    quantity := 1, unitPrice := 5, selectedModifiers := [],
    specialInstructions := none }

/-- C5 witness: merging on the second burger turn increments the existing
line instead of appending a second one. -/
theorem addItemFromText_merge_witness :
    (addItemFromText "a burger" [burgerItem] firstBurgerOrder "line-2" "t2").order.items =
      firstBurgerOrder.items.map (fun item =>
        if decide (item.id = firstBurgerLine.id) = true then
          { item with quantity := item.quantity +
              extractQuantity (String.mk ("a burger".toList.map Char.toLower)) burgerItem.name }
        else item) ∧
    (addItemFromText "a burger" [burgerItem] firstBurgerOrder "line-2" "t2").addedItem =
      some firstBurgerLine :=
  (addItemFromText_merge "a burger" [burgerItem] firstBurgerOrder "line-2" "t2" burgerItem
    (by with_unfolding_all decide)).2.1 firstBurgerLine (by with_unfolding_all decide)

/-! ## Shared structural lemmas about the validator -/

/-- Group processing only looks at the line through its id, menu item id,
and the selections it holds for the group. -/
theorem groupCheck_congr (it it2 : OrderItem) (g : ModifierGroup)
    (hid : it2.id = it.id) (hmid : it2.menuItemId = it.menuItemId)
    (hsel : selectionsFor it2 g.id = selectionsFor it g.id) :
    groupCheck it2 g = groupCheck it g := by
  unfold groupCheck
  rw [hid, hmid, hsel]

/-- Errors recorded by optionCheck carry no structured detail. -/
theorem optionCheck_error_details (lineId menuItemId : String) (g : ModifierGroup)
    (oid : String) :
    ∀ e ∈ (optionCheck lineId menuItemId g oid).1, e.details = none := by
  intro e he
  unfold optionCheck at he
  rcases h : g.options.find? (fun o => decide (o.id = oid)) with _ | o
  · rw [h] at he
    dsimp only at he
    simp only [List.mem_singleton] at he
    rw [he]
  · rw [h] at he
    dsimp only at he
    rcases hav : o.isAvailable
    · rw [hav] at he
      simp only [Bool.false_eq_true, if_false, List.mem_singleton] at he
      rw [he]
    · rw [hav] at he
      simp at he

/-- Every error recorded while processing a group either carries that group
id in its detail payload or carries no detail at all. -/
theorem groupCheck_error_details (it : OrderItem) (g : ModifierGroup) :
    ∀ e ∈ (groupCheck it g).1,
      detailsGroupId e.details = some g.id ∨ detailsGroupId e.details = none := by
  intro e he
  unfold groupCheck groupCheckCore at he
  dsimp only at he
  rw [List.flatMap_map] at he
  rcases List.mem_append.mp he with he1 | he3
  · rcases List.mem_append.mp he1 with hmin | hmax
    · left
      split at hmin
      · rw [List.mem_singleton] at hmin
        rw [hmin]
        rfl
      · exact absurd hmin (List.not_mem_nil e)
    · left
      split at hmax
      · rw [List.mem_singleton] at hmax
        rw [hmax]
        rfl
      · exact absurd hmax (List.not_mem_nil e)
  · right
    rcases List.mem_flatMap.mp he3 with ⟨oid, hmm⟩
    rw [optionCheck_error_details it.id it.menuItemId g oid e hmm.2]
    rfl

/-- Rebuilt modifier snapshots recorded while processing a group all carry
that group id. -/
theorem groupCheck_mods_groupId (it : OrderItem) (g : ModifierGroup) :
    ∀ m ∈ (groupCheck it g).2.2, m.groupId = g.id := by
  intro m hm
  unfold groupCheck groupCheckCore at hm
  dsimp only at hm
  rw [List.flatMap_map] at hm
  rcases List.mem_flatMap.mp hm with ⟨oid, _, hmem⟩
  unfold optionCheck at hmem
  rcases h : g.options.find? (fun o => decide (o.id = oid)) with _ | o
  · rw [h] at hmem
    simp at hmem
  · rw [h] at hmem
    dsimp only at hmem
    simp only [List.mem_singleton] at hmem
    rw [hmem]

/-- A list in which every element maps to its own singleton flattens to
itself. -/
theorem flatMap_id_of_mem {α : Type} (l : List α) (f : α → List α)
    (h : ∀ u ∈ l, f u = [u]) : l.flatMap f = l := by
  induction l with
  | nil => rfl
  | cons a tl ih =>
    rw [List.flatMap_cons, h a (by simp), ih (fun u hu => h u (by simp [hu]))]
    rfl

/-! ## C10: unknown modifier groups are ignored -/

/-- Removal, from one line, of the selected modifiers whose group id does
not occur among the referenced menu item's modifier groups. -/
def stripLine (menu : List MenuItem) (it : OrderItem) : OrderItem :=
  match menuLookup menu it.menuItemId with
  | none => it
  | some d =>
    { it with selectedModifiers := it.selectedModifiers.filter (fun m =>
        decide (m.groupId ∈ d.modifierGroups.map (fun g => g.id))) }

/-- Removal of unknown-group modifiers from every line of an order. -/
def stripUnknownMods (menu : List MenuItem) (order : Order) : Order :=
  { order with items := order.items.map (stripLine menu) }

/-- Stripping unknown-group modifiers does not change the selections seen
for any group of the referenced menu item. -/
theorem selectionsFor_strip (it : OrderItem) (d : MenuItem) (g : ModifierGroup)
    (hg : g ∈ d.modifierGroups) :
    selectionsFor { it with selectedModifiers := it.selectedModifiers.filter (fun m =>
        decide (m.groupId ∈ d.modifierGroups.map (fun g2 => g2.id))) } g.id =
      selectionsFor it g.id := by
  unfold selectionsFor
  dsimp only
  rw [List.filter_filter]
  congr 1
  apply List.filter_congr
  intro m _
  rcases hp : decide (m.groupId = g.id) with _ | _
  · simp [hp]
  · have hmem : m.groupId ∈ d.modifierGroups.map (fun g2 => g2.id) := by
      rw [of_decide_eq_true hp]
      exact List.mem_map_of_mem (fun g2 => g2.id) hg
    simp [hp, hmem]

/-- Validation of a line is determined by its id, menu item id, quantity,
special instructions, and per-group selections. -/
theorem validateItem_eq_of_same_sel (menu : List MenuItem) (it it2 : OrderItem)
    (d : MenuItem) (hid : it2.id = it.id) (hmid : it2.menuItemId = it.menuItemId)
    (hq : it2.quantity = it.quantity)
    (hsi : it2.specialInstructions = it.specialInstructions)
    (hlk : menuLookup menu it.menuItemId = some d)
    (hsel : ∀ g ∈ d.modifierGroups, selectionsFor it2 g.id = selectionsFor it g.id) :
    validateItem menu it2 = validateItem menu it := by
  unfold validateItem
  rw [hmid, hlk]
  dsimp only
  rw [hid, hq, hsi]
  rw [List.map_congr_left (fun g hg => groupCheck_congr it it2 g hid hmid (hsel g hg))]

/-- Per-line form of the C10 theorem: validation of a stripped line equals
validation of the original line. -/
theorem validateItem_strip (menu : List MenuItem) (it : OrderItem) :
    validateItem menu (stripLine menu it) = validateItem menu it := by
  unfold stripLine
  rcases hlk : menuLookup menu it.menuItemId with _ | d
  · rfl
  · exact validateItem_eq_of_same_sel menu it
      { it with selectedModifiers := it.selectedModifiers.filter (fun m =>
          decide (m.groupId ∈ d.modifierGroups.map (fun g => g.id))) }
      d rfl rfl rfl rfl hlk (fun g hg => selectionsFor_strip it d g hg)

/-- Every line of a validated order looks up to a menu item, and each of its
surviving modifiers carries one of that item's group ids. -/
theorem validateItem_output_groups (menu : List MenuItem) (it : OrderItem)
    (v : OrderItem) (hv : v ∈ (validateItem menu it).2) :
    ∃ d, menuLookup menu v.menuItemId = some d ∧
      ∀ m ∈ v.selectedModifiers, m.groupId ∈ d.modifierGroups.map (fun g => g.id) := by
  unfold validateItem at hv
  rcases hlk : menuLookup menu it.menuItemId with _ | d
  · rw [hlk] at hv
    simp at hv
  · rw [hlk] at hv
    dsimp only at hv
    simp only [List.mem_singleton] at hv
    subst hv
    refine ⟨d, hlk, ?_⟩
    intro m hm
    have hm2 : m ∈ (d.modifierGroups.map (groupCheck it)).flatMap (fun r => r.2.2) := hm
    rw [List.flatMap_map] at hm2
    rcases List.mem_flatMap.mp hm2 with ⟨g, hgmem, hmg⟩
    rw [groupCheck_mods_groupId it g m hmg]
    exact List.mem_map_of_mem (fun g2 => g2.id) hgmem

/-- C10: selected modifiers whose group id matches no modifier group of the
referenced menu item are invisible to validateOrder - removing them changes
nothing in the result, so they are omitted from the output, add nothing to
the price, and raise no error - and every modifier surviving in the
validated output carries a group id of the referenced menu item. -/
theorem validateOrder_ignores_unknown_groups (order : Order) (menu : List MenuItem)
    (now : String) :
    validateOrder order menu now = validateOrder (stripUnknownMods menu order) menu now ∧
    ∀ v ∈ (validateOrder order menu now).validatedOrder.items,
      ∀ m ∈ v.selectedModifiers, ∃ d, menuLookup menu v.menuItemId = some d ∧
        m.groupId ∈ d.modifierGroups.map (fun g => g.id) := by
  constructor
  · unfold validateOrder stripUnknownMods
    dsimp only
    have hmap : List.map (validateItem menu) (order.items.map (stripLine menu)) =
        List.map (validateItem menu) order.items := by
      rw [List.map_map]
      exact List.map_congr_left (fun it _ => validateItem_strip menu it)
    rw [hmap]
  · intro v hv m hm
    rcases List.mem_flatMap.mp hv with ⟨r, hrmem, hvr⟩
    rcases List.mem_map.mp hrmem with ⟨it, _, hit⟩
    subst hit
    rcases validateItem_output_groups menu it v hvr with ⟨d, hd, hall⟩
    exact ⟨d, hd, hall m hm⟩

/-- Size option used by the combo fixtures. -/
def sizeOption : ModifierOption :=
  { id := "opt-large", name := "Large", priceAdjustment := 1, isAvailable := true }

/-- Optional size group, zero to two selections. -/
def sizeGroup : ModifierGroup :=
  { id := "grp-size", name := "Size", minSelection := 0, maxSelection := 2,
    options := [sizeOption] }

def comboItem : MenuItem :=
  { id := "menu-combo", name := "Combo", description := "", basePrice := 8,
    category := "Food", isAvailable := true, modifierGroups := [sizeGroup] }

/-- Order whose line selects the size option and also a modifier in a group
id unknown to the combo item. -/
def strayModOrder : Order :=
  { id := "ord-7", customerId := none,
    items := [{ id := "line-1", menuItemId := "menu-combo", name := "Combo",
                quantity := 1, unitPrice := 8,
                selectedModifiers :=
                  [{ groupId := "grp-size", optionId := "opt-large", name := "Large",
                     priceAdjustment := 1 },
                   { groupId := "grp-ghost", optionId := "opt-x", name := "Mystery",
                     priceAdjustment := 50 }],
                specialInstructions := none }],
    subtotal := 9, tax := 0, total := 9, status := .pending,
    createdAt := "t0", updatedAt := "t0" }

/-- The surviving size modifier snapshot of the validated stray-mod line. -/
def keptSizeMod : SelectedModifier :=
  { groupId := "grp-size", optionId := "opt-large", name := "Large",
    priceAdjustment := 1 }

/-- The validated stray-mod line, with the unknown-group modifier gone. -/
def validatedComboLine : OrderItem :=
  { id := "line-1", menuItemId := "menu-combo", name := "Combo", quantity := 1,
    unitPrice := 9, selectedModifiers := [keptSizeMod],
    specialInstructions := none }

/-- C10 witness: the theorem applied to a concrete order carrying a stray
modifier, instantiated at the surviving modifier of the validated line. -/
theorem validateOrder_ignores_unknown_groups_witness :
    ∃ d, menuLookup [comboItem] validatedComboLine.menuItemId = some d ∧
      keptSizeMod.groupId ∈ d.modifierGroups.map (fun g => g.id) :=
  (validateOrder_ignores_unknown_groups strayModOrder [comboItem] "t1").2
    validatedComboLine (by with_unfolding_all decide)
    keptSizeMod (by with_unfolding_all decide)

/-! ## C8: modifier cardinality errors -/

/-- A predicate that pins a group id in the detail payload counts nothing
from the processing of a group with a different id. -/
theorem countP_groupCheck_other (it : OrderItem) (g2 : ModifierGroup) (gid : String)
    (p : ValidationError → Bool)
    (hp : ∀ e, p e = true → detailsGroupId e.details = some gid)
    (hne : g2.id ≠ gid) :
    (groupCheck it g2).1.countP p = 0 := by
  rw [List.countP_eq_zero]
  intro e he hpe
  rcases groupCheck_error_details it g2 e he with h | h
  · rw [hp e hpe] at h
    exact hne (Option.some.inj h).symm
  · rw [hp e hpe] at h
    exact Option.noConfusion h

/-- Such a predicate counts, over all groups of a menu item among which the
pinned group id occurs exactly once, exactly what it counts on the pinned
group. -/
theorem countP_flatMap_filter_singleton (it : OrderItem) (g : ModifierGroup)
    (p : ValidationError → Bool)
    (hp : ∀ e, p e = true → detailsGroupId e.details = some g.id) :
    ∀ gs : List ModifierGroup,
      gs.filter (fun h2 => decide (h2.id = g.id)) = [g] →
      ((gs.map (groupCheck it)).flatMap (fun r => r.1)).countP p =
        (groupCheck it g).1.countP p := by
  intro gs
  induction gs with
  | nil => intro hflt; simp at hflt
  | cons a tl ih =>
    intro hflt
    rw [List.filter_cons] at hflt
    rw [List.map_cons, List.flatMap_cons, List.countP_append]
    rcases h : decide (a.id = g.id) with _ | _
    · rw [h] at hflt
      simp only [Bool.false_eq_true, if_false] at hflt
      rw [countP_groupCheck_other it a g.id p hp (of_decide_eq_false h)]
      rw [ih hflt]
      omega
    · rw [h] at hflt
      simp only [if_true] at hflt
      have ha : a = g := (List.cons.injEq a _ g []).mp hflt |>.1
      have htl : tl.filter (fun h2 => decide (h2.id = g.id)) = [] :=
        (List.cons.injEq a _ g []).mp hflt |>.2
      have htl0 : ((tl.map (groupCheck it)).flatMap (fun r => r.1)).countP p = 0 := by
        rw [List.countP_eq_zero]
        intro e he hpe
        rw [List.flatMap_map] at he
        rcases List.mem_flatMap.mp he with ⟨g2, hmm⟩
        have hg2 : g2.id ≠ g.id := by
          intro hcontra
          have : g2 ∈ tl.filter (fun h2 => decide (h2.id = g.id)) :=
            List.mem_filter.mpr ⟨hmm.1, by rw [hcontra]; simp⟩
          rw [htl] at this
          exact absurd this (List.not_mem_nil g2)
        have := countP_groupCheck_other it g2 g.id p hp hg2
        rw [List.countP_eq_zero] at this
        exact this e hmm.2 hpe
      rw [ha, htl0]
      omega

/-- Availability errors for the item itself never match a modifier error
predicate that requires a modifier error code. -/
theorem countP_availErr_zero (mi : MenuItem) (it : OrderItem)
    (p : ValidationError → Bool)
    (hp : ∀ e, p e = true → e.code = .MODIFIER_REQUIRED ∨ e.code = .MODIFIER_INVALID) :
    ((if mi.isAvailable then ([] : List ValidationError) else
      [{ code := .ITEM_UNAVAILABLE,
         message := "Item \x27" ++ mi.name ++ "\x27 is currently unavailable.",
         itemId := some it.id, menuItemId := some it.menuItemId,
         details := none }]).countP p) = 0 := by
  rcases hA : mi.isAvailable
  · rw [List.countP_eq_zero]
    intro e he hpe
    simp only [Bool.false_eq_true, if_false] at he
    rw [List.mem_singleton] at he
    rcases hp e hpe with h | h <;> rw [he] at h <;> exact ErrorCode.noConfusion h
  · rfl

/-- Validator errors of a one-line order are the errors of that line. -/
theorem validateOrder_errors_single (order : Order) (menu : List MenuItem)
    (now : String) (it : OrderItem) (hitems : order.items = [it]) :
    (validateOrder order menu now).errors = (validateItem menu it).1 := by
  unfold validateOrder
  dsimp only
  rw [hitems]
  simp

/-- C8: for a single-line order whose line references a menu item that has a
modifier group with minimum and maximum selection one, all of whose options
exist and are available: zero selections in that group yield exactly one
modifier-required error for the group, and two valid selections yield
exactly one modifier-invalid error for the group. -/
theorem validateOrder_modifier_cardinality (order : Order) (menu : List MenuItem)
    (now : String) (it : OrderItem) (mi : MenuItem) (g : ModifierGroup)
    (hitems : order.items = [it])
    (hlk : menuLookup menu it.menuItemId = some mi)
    (hflt : mi.modifierGroups.filter (fun h2 => decide (h2.id = g.id)) = [g])
    (hmin : g.minSelection = 1) (hmax : g.maxSelection = 1)
    (hav : ∀ o ∈ g.options, o.isAvailable = true) :
    (selectionsFor it g.id = [] →
      ((validateOrder order menu now).errors.countP (fun e =>
        decide (e.code = ErrorCode.MODIFIER_REQUIRED) &&
          decide (detailsGroupId e.details = some g.id))) = 1) ∧
    (∀ a b oa ob, selectionsFor it g.id = [a, b] →
      g.options.find? (fun o => decide (o.id = a)) = some oa →
      g.options.find? (fun o => decide (o.id = b)) = some ob →
      ((validateOrder order menu now).errors.countP (fun e =>
        decide (e.code = ErrorCode.MODIFIER_INVALID) &&
          decide (detailsGroupId e.details = some g.id))) = 1) := by
  have herr := validateOrder_errors_single order menu now it hitems
  have hvi : (validateItem menu it).1 =
      (if mi.isAvailable then ([] : List ValidationError) else
        [{ code := .ITEM_UNAVAILABLE,
           message := "Item \x27" ++ mi.name ++ "\x27 is currently unavailable.",
           itemId := some it.id, menuItemId := some it.menuItemId,
           details := none }]) ++
        (mi.modifierGroups.map (groupCheck it)).flatMap (fun r => r.1) := by
    unfold validateItem
    rw [hlk]
  constructor
  · intro hsel
    rw [herr, hvi, List.countP_append]
    rw [countP_availErr_zero mi it _ (by
      intro e hpe
      left
      exact of_decide_eq_true ((Bool.and_eq_true _ _).mp hpe).1)]
    rw [countP_flatMap_filter_singleton it g _ (by
      intro e hpe
      exact of_decide_eq_true ((Bool.and_eq_true _ _).mp hpe).2) mi.modifierGroups hflt]
    have hg1 : (groupCheck it g).1 =
        [{ code := .MODIFIER_REQUIRED,
           message := "Selection required for \x27" ++ g.name ++ "\x27.",
           itemId := some it.id, menuItemId := some it.menuItemId,
           details := some (.minDetail g.id 1 0) }] := by
      unfold groupCheck groupCheckCore
      rw [hsel, hmin, hmax]
      norm_num
    rw [hg1]
    simp [List.countP_cons, detailsGroupId]
  · intro a b oa ob hsel hfa hfb
    rw [herr, hvi, List.countP_append]
    rw [countP_availErr_zero mi it _ (by
      intro e hpe
      right
      exact of_decide_eq_true ((Bool.and_eq_true _ _).mp hpe).1)]
    rw [countP_flatMap_filter_singleton it g _ (by
      intro e hpe
      exact of_decide_eq_true ((Bool.and_eq_true _ _).mp hpe).2) mi.modifierGroups hflt]
    have ha1 : optionCheck it.id it.menuItemId g a =
        ([], oa.priceAdjustment,
         [{ groupId := g.id, optionId := oa.id, name := oa.name,
            priceAdjustment := oa.priceAdjustment }]) := by
      unfold optionCheck
      rw [hfa]
      dsimp only
      rw [hav oa (List.mem_of_find?_eq_some hfa)]
      rw [if_pos rfl]
    have hb1 : optionCheck it.id it.menuItemId g b =
        ([], ob.priceAdjustment,
         [{ groupId := g.id, optionId := ob.id, name := ob.name,
            priceAdjustment := ob.priceAdjustment }]) := by
      unfold optionCheck
      rw [hfb]
      dsimp only
      rw [hav ob (List.mem_of_find?_eq_some hfb)]
      rw [if_pos rfl]
    have hg1 : (groupCheck it g).1 =
        [{ code := .MODIFIER_INVALID,
           message := "Too many selections for \x27" ++ g.name ++ "\x27. Max allowed: " ++
             toString (1 : ℚ) ++ ".",
           itemId := some it.id, menuItemId := some it.menuItemId,
           details := some (.maxDetail g.id 1 2) }] := by
      unfold groupCheck groupCheckCore
      rw [hsel, hmin, hmax]
      rw [List.map_cons, List.map_cons, List.map_nil, ha1, hb1]
      norm_num
    rw [hg1]
    simp [List.countP_cons, detailsGroupId]

/-- Required single-choice group with two available options. -/
def requiredGroup : ModifierGroup :=
  { id := "grp-req", name := "Choice", minSelection := 1, maxSelection := 1,
    options := [{ id := "opt-a", name := "A", priceAdjustment := 0, isAvailable := true },
                { id := "opt-b", name := "B", priceAdjustment := 1/2, isAvailable := true }] }

def requiredChoiceItem : MenuItem :=
  { id := "menu-req", name := "Bowl", description := "", basePrice := 7,
    category := "Food", isAvailable := true, modifierGroups := [requiredGroup] }

/-- Line that selects nothing from the required group. -/
def noChoiceLine : OrderItem :=
  { id := "line-1", menuItemId := "menu-req", name := "Bowl", quantity := 1,
    unitPrice := 7, selectedModifiers := [], specialInstructions := none }

def noChoiceOrder : Order :=
  { id := "ord-8", customerId := none, items := [noChoiceLine],
    subtotal := 7, tax := 0, total := 7, status := .pending,
    createdAt := "t0", updatedAt := "t0" }

/-- C8 witness: the cardinality theorem applied to a concrete single-choice
group with zero selections. -/
theorem validateOrder_modifier_cardinality_witness :
    ((validateOrder noChoiceOrder [requiredChoiceItem] "t1").errors.countP (fun e =>
      decide (e.code = ErrorCode.MODIFIER_REQUIRED) &&
        decide (detailsGroupId e.details = some requiredGroup.id))) = 1 :=
  (validateOrder_modifier_cardinality noChoiceOrder [requiredChoiceItem] "t1"
    noChoiceLine requiredChoiceItem requiredGroup rfl (by with_unfolding_all decide)
    (by with_unfolding_all decide) rfl rfl
    (by with_unfolding_all decide)).1 (by with_unfolding_all decide)

/-! ## C9: idempotence of validation -/

/-- An error-free option check found its option, the option is available,
and the rebuilt snapshot echoes the submitted option id. -/
theorem optionCheck_noerr (lineId menuItemId : String) (g : ModifierGroup)
    (oid : String) (h : (optionCheck lineId menuItemId g oid).1 = []) :
    ∃ o, g.options.find? (fun x => decide (x.id = oid)) = some o ∧
      o.isAvailable = true ∧
      (optionCheck lineId menuItemId g oid).2.2 =
        [{ groupId := g.id, optionId := oid, name := o.name,
           priceAdjustment := o.priceAdjustment }] := by
  unfold optionCheck at h ⊢
  rcases hf : g.options.find? (fun x => decide (x.id = oid)) with _ | o
  · rw [hf] at h
    simp at h
  · rw [hf] at h ⊢
    dsimp only at h ⊢
    rcases hA : o.isAvailable
    · rw [hA] at h
      simp at h
    · refine ⟨o, rfl, hA, ?_⟩
      have hpo := List.find?_some hf
      have hoid : o.id = oid := of_decide_eq_true hpo
      rw [hoid]

/-- Option ids of the snapshots rebuilt from an error-free selection list
are the selection list itself. -/
theorem flatMap_optionCheck_sel (lineId menuItemId : String) (g : ModifierGroup) :
    ∀ sel : List String,
      (∀ oid ∈ sel, (optionCheck lineId menuItemId g oid).1 = []) →
      (((sel.map (optionCheck lineId menuItemId g)).flatMap (fun r => r.2.2)).map
        (fun m => m.optionId)) = sel := by
  intro sel
  induction sel with
  | nil => intro _; rfl
  | cons oid tl ih =>
    intro hall
    rw [List.map_cons, List.flatMap_cons, List.map_append]
    rcases optionCheck_noerr lineId menuItemId g oid (hall oid (by simp)) with
      ⟨o, _, _, hsnap⟩
    rw [hsnap, ih (fun x hx => hall x (by simp [hx]))]
    rfl

/-- Error-free group processing leaves every per-option check error-free. -/
theorem groupCheck_noerr_opts (it : OrderItem) (g : ModifierGroup)
    (herr : (groupCheck it g).1 = []) :
    ∀ oid ∈ selectionsFor it g.id, (optionCheck it.id it.menuItemId g oid).1 = [] := by
  unfold groupCheck groupCheckCore at herr
  dsimp only at herr
  rcases List.append_eq_nil.mp herr with ⟨_, h3⟩
  rw [List.flatMap_map] at h3
  exact List.flatMap_eq_nil_iff.mp h3

/-- The option ids of the snapshots a group produces, when the group
produced no error, are exactly the submitted selections for the group. -/
theorem groupCheck_noerr_sel (it : OrderItem) (g : ModifierGroup)
    (herr : (groupCheck it g).1 = []) :
    ((groupCheck it g).2.2).map (fun m => m.optionId) = selectionsFor it g.id := by
  have h := groupCheck_noerr_opts it g herr
  unfold groupCheck groupCheckCore
  dsimp only
  exact flatMap_optionCheck_sel it.id it.menuItemId g (selectionsFor it g.id) h

/-- Filtering the concatenated snapshots of all groups of an item, whose
group ids are distinct, by one group id leaves that group's snapshots. -/
theorem filter_flatMap_groups (it : OrderItem) :
    ∀ (gs : List ModifierGroup), ((gs.map (fun g => g.id)).Nodup) →
      ∀ g ∈ gs,
        (((gs.map (groupCheck it)).flatMap (fun r => r.2.2)).filter
          (fun m => decide (m.groupId = g.id))) = (groupCheck it g).2.2 := by
  intro gs
  induction gs with
  | nil => intro _ g hg; cases hg
  | cons a tl ih =>
    intro hnd g hg
    rw [List.map_cons] at hnd
    rcases List.nodup_cons.mp hnd with ⟨hnotin, hndtl⟩
    rw [List.map_cons, List.flatMap_cons, List.filter_append]
    rcases List.mem_cons.mp hg with heq | hgtl
    · subst heq
      rw [List.filter_eq_self.mpr (fun m hm =>
        decide_eq_true (groupCheck_mods_groupId it g m hm))]
      have hrest : (((tl.map (groupCheck it)).flatMap (fun r => r.2.2)).filter
          (fun m => decide (m.groupId = g.id))) = [] := by
        rw [List.filter_eq_nil_iff]
        intro m hm hd
        rw [List.flatMap_map] at hm
        rcases List.mem_flatMap.mp hm with ⟨g2, hg2, hm2⟩
        have h1 : m.groupId = g2.id := groupCheck_mods_groupId it g2 m hm2
        have h2 : m.groupId = g.id := of_decide_eq_true hd
        have h3 : g2.id = g.id := by rw [← h1, h2]
        exact hnotin (h3 ▸ List.mem_map_of_mem (fun x => x.id) hg2)
      rw [hrest, List.append_nil]
    · have hne : a.id ≠ g.id := by
        intro hcontra
        rw [hcontra] at hnotin
        exact hnotin (List.mem_map_of_mem (fun x => x.id) hgtl)
      have hzero : (((groupCheck it a).2.2).filter (fun m => decide (m.groupId = g.id))) = [] := by
        rw [List.filter_eq_nil_iff]
        intro m hm hd
        have h1 : m.groupId = a.id := groupCheck_mods_groupId it a m hm
        have h2 : m.groupId = g.id := of_decide_eq_true hd
        exact hne (h1 ▸ h2)
      rw [hzero, List.nil_append]
      exact ih hndtl g hgtl

/-- Revalidating the output line of an error-free validation reproduces it
with no errors, provided the menu item's group ids are distinct. -/
theorem validateItem_idem (menu : List MenuItem) (it : OrderItem)
    (hnd : ∀ mi ∈ menu, ((mi.modifierGroups.map (fun g => g.id)).Nodup))
    (herr : (validateItem menu it).1 = []) :
    ∃ v, (validateItem menu it).2 = [v] ∧ validateItem menu v = ([], [v]) := by
  rcases hlk : menuLookup menu it.menuItemId with _ | d
  · exfalso
    unfold validateItem at herr
    rw [hlk] at herr
    simp at herr
  · have hdm : ((d.modifierGroups.map (fun g => g.id)).Nodup) :=
      hnd d (List.mem_of_find?_eq_some hlk)
    unfold validateItem at herr
    rw [hlk] at herr
    dsimp only at herr
    rcases List.append_eq_nil.mp herr with ⟨havail, hgrps⟩
    have hger : ∀ g ∈ d.modifierGroups, (groupCheck it g).1 = [] := by
      rw [List.flatMap_map] at hgrps
      exact List.flatMap_eq_nil_iff.mp hgrps
    have hAvail : d.isAvailable = true := by
      rcases h : d.isAvailable
      · rw [h] at havail
        simp at havail
      · rfl
    refine ⟨{ it with
        name := d.name,
        unitPrice := d.basePrice +
          ((d.modifierGroups.map (groupCheck it)).map (fun r => r.2.1)).sum,
        selectedModifiers :=
          (d.modifierGroups.map (groupCheck it)).flatMap (fun r => r.2.2) }, ?_, ?_⟩
    · unfold validateItem
      rw [hlk]
    · have hselv : ∀ g ∈ d.modifierGroups,
          selectionsFor { it with
            name := d.name,
            unitPrice := d.basePrice +
              ((d.modifierGroups.map (groupCheck it)).map (fun r => r.2.1)).sum,
            selectedModifiers :=
              (d.modifierGroups.map (groupCheck it)).flatMap (fun r => r.2.2) } g.id =
            selectionsFor it g.id := by
        intro g hg
        unfold selectionsFor
        dsimp only
        rw [filter_flatMap_groups it d.modifierGroups hdm g hg]
        exact groupCheck_noerr_sel it g (hger g hg)
      have hcongr := validateItem_eq_of_same_sel menu it
        { it with
          name := d.name,
          unitPrice := d.basePrice +
            ((d.modifierGroups.map (groupCheck it)).map (fun r => r.2.1)).sum,
          selectedModifiers :=
            (d.modifierGroups.map (groupCheck it)).flatMap (fun r => r.2.2) }
        d rfl rfl rfl rfl hlk hselv
      rw [hcongr]
      unfold validateItem
      rw [hlk]
      dsimp only
      rw [hAvail, if_pos rfl]
      rw [List.flatMap_map] at hgrps
      rw [List.flatMap_map, hgrps]
      rfl

/-- C9: validating the validated Order of an error-free validation against
the same menu, with menus whose modifier group ids are distinct per item,
returns the identical ValidationResult. -/
theorem validateOrder_idempotent (order : Order) (menu : List MenuItem) (now : String)
    (hnd : ∀ mi ∈ menu, ((mi.modifierGroups.map (fun g => g.id)).Nodup))
    (hval : (validateOrder order menu now).errors = []) :
    validateOrder ((validateOrder order menu now).validatedOrder) menu now =
      validateOrder order menu now := by
  have hval2 : (order.items.map (validateItem menu)).flatMap (fun r => r.1) = [] := hval
  have heach : ∀ it ∈ order.items, (validateItem menu it).1 = [] := by
    rw [List.flatMap_map] at hval2
    exact List.flatMap_eq_nil_iff.mp hval2
  have hout : ∀ v ∈ (order.items.map (validateItem menu)).flatMap (fun r => r.2),
      validateItem menu v = ([], [v]) := by
    intro v hv
    rcases List.mem_flatMap.mp hv with ⟨r, hrmem, hvr⟩
    rcases List.mem_map.mp hrmem with ⟨it, hitmem, hit⟩
    subst hit
    rcases validateItem_idem menu it hnd (heach it hitmem) with ⟨u, hu2, hu⟩
    rw [hu2, List.mem_singleton] at hvr
    rw [hvr, hu]
  have hE : ((((order.items.map (validateItem menu)).flatMap (fun r => r.2)).map
      (validateItem menu)).flatMap (fun r => r.1)) = [] := by
    rw [List.flatMap_map]
    exact List.flatMap_eq_nil_iff.mpr (fun v hv => by rw [hout v hv])
  have hI : ((((order.items.map (validateItem menu)).flatMap (fun r => r.2)).map
      (validateItem menu)).flatMap (fun r => r.2)) =
      ((order.items.map (validateItem menu)).flatMap (fun r => r.2)) := by
    rw [List.flatMap_map]
    exact flatMap_id_of_mem _ _ (fun v hv => by rw [hout v hv])
  dsimp only [validateOrder]
  rw [hE, hI, hval2]

/-- C9 witness: the idempotence theorem applied to a concrete valid order. -/
theorem validateOrder_idempotent_witness :
    validateOrder ((validateOrder centOrder [burgerItem] "t1").validatedOrder) [burgerItem] "t1" =
      validateOrder centOrder [burgerItem] "t1" :=
  validateOrder_idempotent centOrder [burgerItem] "t1"
    (by with_unfolding_all decide) (by with_unfolding_all decide)

end VoiceOrdering
